import Mathlib

/-!
Shallow embedding of `yosemite_checker.py` (Yosemite Valley Lodge availability
checker) and verification of its specification claims.

Modelling conventions, used throughout:
* A calendar `Date` is a day number (`Nat`), counted from a Monday epoch, so
  that `d % 7` is exactly the Python `date.weekday()` value
  (Monday = 0, ..., Friday = 4, Saturday = 5, Sunday = 6).
  Adding one day is `d + 1`.
* `datetime.date.today()` is passed explicitly as a `today : Nat` parameter.
* Python substring containment `pat in s` is `strContains s pat`; Python
  `str.lower()` is `pyLower` (ASCII case folding, which covers every phrase
  the checker compares against).
* External effects (browser, HTTP, filesystem, SMTP, the random generator)
  are passed in as explicit data: fetched page evidence as a record per
  probed date, the random draw as a parameter in `[0, 1]`, the results file
  as an explicit state value.
-/

/-- Python `pat` starts `s`: `s.startswith(pat)` on character lists. -/
def charListStartsWith : List Char → List Char → Bool
  | [], _ => true
  | _ :: _, [] => false
  | c :: cs, d :: ds => c == d && charListStartsWith cs ds

/-- Occurrence of `pat` as a contiguous block somewhere in the list. -/
def charListOccurs (pat : List Char) : List Char → Bool
  | [] => charListStartsWith pat []
  | c :: rest => charListStartsWith pat (c :: rest) || charListOccurs pat rest

/-- Python substring test `pat in s`. -/
def strContains (s pat : String) : Bool := charListOccurs pat.data s.data

/-- Python `s.lower()` (ASCII case folding on the character list). -/
def pyLower (s : String) : String := String.mk (s.data.map Char.toLower)

/-- Embeds `get_weekend_dates` (yosemite_checker.py lines 121-135): walk day
by day from `today` while `current <= today + 30 * months_ahead`, keeping the
days whose weekday is in `[4, 5, 6]` (Friday, Saturday, Sunday).  The walk
visits `30 * months_ahead + 1` days when that is nonnegative and none
otherwise, which the embedding expresses with `Int.toNat`. -/
def get_weekend_dates (today : Nat) (months_ahead : Int) : List Nat :=
  let num_days := (30 * months_ahead + 1).toNat
  ((List.range num_days).map (fun i => today + i)).filter
    (fun current => current % 7 == 4 || current % 7 == 5 || current % 7 == 6)

/-- Embeds `find_consecutive_days` (lines 148-163): the Python loop over
`i in range(len(available_dates) - 1)` reads `available_dates[i]` and
`available_dates[i + 1]`, which is structural recursion over adjacent
elements.  A pair is kept when the dates differ by exactly one day and the
weekday combination is (Friday, Saturday) or (Saturday, Sunday). -/
def find_consecutive_days : List Nat → List (Nat × Nat)
  | date1 :: date2 :: rest =>
      (if date2 - date1 == 1 &&
          ((date1 % 7 == 4 && date2 % 7 == 5) || (date1 % 7 == 5 && date2 % 7 == 6))
       then [(date1, date2)] else []) ++ find_consecutive_days (date2 :: rest)
  | _ => []

/-- Formulation of the claim C6 output description (spec 4.3): the positionally
adjacent pairs of the input, filtered by the one-day-apart weekend-combination
rule.  Stated from the words of the claim, to be compared with
`find_consecutive_days`. -/
def spec_adjacent_weekend_pairs (l : List Nat) : List (Nat × Nat) :=
  (l.zip l.tail).filter (fun p =>
    p.2 - p.1 == 1 &&
      ((p.1 % 7 == 4 && p.2 % 7 == 5) || (p.1 % 7 == 5 && p.2 % 7 == 6)))

/-- Error phrase list from `check_availability` (lines 546-552). -/
def error_phrases : List String :=
  ["action not allowed", "access denied", "error", "unavailable", "forbidden"]

/-- No-availability phrase list shared by both variants (lines 559-568 and
754-763). -/
def no_availability_phrases : List String :=
  ["no availability", "not available", "no rooms available", "sold out",
   "no lodging available", "no results found", "couldn\x27t find any results",
   "we couldn\x27t find any results"]

/-- URL patterns identifying a results page (lines 448-454).  The first
pattern carries upper-case letters in the source even though it is matched
against a lowercased URL; the embedding keeps it verbatim. -/
def result_patterns : List String :=
  ["Accommodation-Search/Results", "accommodation-search/results",
   "Availability", "results", "search"]

/-- Blocking or error phrase found in the (lowercased) page source
(line 554). -/
def has_error_phrase (page_source : String) : Bool :=
  error_phrases.any (fun phrase => strContains page_source phrase)

/-- Explicit no-availability phrase found in the (lowercased) page source
(line 570; line 766 in the Requests variant). -/
def has_no_availability_phrase (page_source : String) : Bool :=
  no_availability_phrases.any (fun phrase => strContains page_source phrase)

/-- Evidence gathered by the Selenium variant for one probed date pair:
the page source (line 539 lowercases it once; later `.lower()` calls in the
source are no-ops on it, so the embedding lowercases once via `pyLower`),
the page title and current URL, and the DOM element counts queried at lines
573-596.  `price_query_raises` records whether the price-element query at
lines 583-591 raised, in which case the source sets `has_price = False`. -/
structure SeleniumEvidence where
  page_source : String
  page_title : String
  current_url : String
  results_heading_count : Nat
  book_button_count : Nat
  price_text_count : Nat
  price_class_count : Nat
  rate_class_count : Nat
  price_query_raises : Bool
  room_details_count : Nat
deriving DecidableEq, Repr

/-- URL pattern match deciding `is_results_url` (line 456). -/
def selenium_is_results_url (ev : SeleniumEvidence) : Bool :=
  result_patterns.any (fun pattern => strContains (pyLower ev.current_url) pattern)

/-- Book/reserve/select control present (lines 578-580). -/
def selenium_has_book_button (ev : SeleniumEvidence) : Bool :=
  decide (0 < ev.book_button_count)

/-- Price signal: the three element-count queries summed (lines 583-591);
`False` when the query raised. -/
def selenium_has_price (ev : SeleniumEvidence) : Bool :=
  if ev.price_query_raises then false
  else decide (0 < ev.price_text_count + ev.price_class_count + ev.rate_class_count)

/-- Room/accommodation/result-item/lodging styled element present
(lines 594-596). -/
def selenium_has_room_details (ev : SeleniumEvidence) : Bool :=
  decide (0 < ev.room_details_count)

/-- Search form still visible (line 599). -/
def selenium_is_search_form_visible (ev : SeleniumEvidence) : Bool :=
  strContains (pyLower ev.page_source) ("search") &&
    strContains (pyLower ev.page_source) ("check availability")

/-- Results page determination (lines 602-608). -/
def selenium_is_results_page (ev : SeleniumEvidence) : Bool :=
  selenium_is_results_url ev ||
    decide (0 < ev.results_heading_count) ||
    strContains (pyLower ev.page_title) ("results") ||
    strContains (pyLower ev.page_title) ("availability") ||
    (strContains (pyLower ev.page_source) ("search results") &&
      !selenium_is_search_form_visible ev)

/-- Positive availability signal of the Selenium variant (line 625). -/
def selenium_positive_signal (ev : SeleniumEvidence) : Bool :=
  selenium_has_book_button ev || selenium_has_price ev || selenium_has_room_details ev

/-- Verdict of the Selenium variant, `true_availability` (lines 623-628):
results page, at least one positive signal, no no-availability phrase, and
no error phrase. -/
def selenium_true_availability (ev : SeleniumEvidence) : Bool :=
  selenium_is_results_page ev && selenium_positive_signal ev &&
    !has_no_availability_phrase (pyLower ev.page_source) &&
    !has_error_phrase (pyLower ev.page_source)

/-- Evidence gathered by the Requests variant for one probed date pair:
the text of the parsed HTML (`soup.get_text()`, lowercased at line 765,
embedded via `pyLower` at use sites) and the parsed-element counts of lines
769-771 (divs whose class mentions rate/room, book/reserve buttons, text
nodes matching a dollar amount). -/
structure RequestsEvidence where
  page_text : String
  rate_element_count : Nat
  book_button_count : Nat
  price_element_count : Nat
deriving DecidableEq, Repr

/-- Positive availability signal of the Requests variant (lines 784-787):
any rate element, book button, price element, or a dollar sign anywhere in
the page text. -/
def requests_positive_signal (ev : RequestsEvidence) : Bool :=
  decide (0 < ev.rate_element_count) || decide (0 < ev.book_button_count) ||
    decide (0 < ev.price_element_count) ||
    strContains (pyLower ev.page_text) ("$")

/-- Verdict of the Requests variant, `has_availability` (line 787).  The
source computes `no_availability` at line 766 but the verdict at line 787
never consults it, and the Requests variant checks no error phrases at all:
the verdict is exactly the positive-signal test. -/
def requests_has_availability (ev : RequestsEvidence) : Bool :=
  requests_positive_signal ev

/-- Candidate check-in dates actually probed by `check_availability`
(Selenium lines 255-267, Requests lines 723-735): the loop runs over
`i in range(len(weekend_dates) - 1)` — all positions but the last — and
skips a date when its weekday is Friday and `check_friday_saturday` is off,
when it is Saturday and `check_saturday_sunday` is off, or when it is not
Friday or Saturday at all (Python `weekday() not in [4, 5]`). -/
def candidate_check_in_dates (weekend_dates : List Nat)
    (check_friday_saturday check_saturday_sunday : Bool) : List Nat :=
  weekend_dates.dropLast.filter (fun check_in_date =>
    !(check_in_date % 7 == 4 && !check_friday_saturday) &&
      (!(check_in_date % 7 == 5 && !check_saturday_sunday) &&
        (check_in_date % 7 == 4 || check_in_date % 7 == 5)))

/-- Candidate date pairs probed in one cycle: each candidate check-in date is
paired with checkout `check_in_date + 1` day (lines 256-257 and 724-725). -/
def candidate_date_pairs (today : Nat) (months_ahead : Int)
    (check_friday_saturday check_saturday_sunday : Bool) : List (Nat × Nat) :=
  (candidate_check_in_dates (get_weekend_dates today months_ahead)
      check_friday_saturday check_saturday_sunday).map
    (fun check_in_date => (check_in_date, check_in_date + 1))

/-- Formulation of the candidate set asserted by claim C3, stated from the
words of the claim for comparison with `candidate_date_pairs`: every date of
the generated sequence (its last element included) whose weekday is Friday or
Saturday with the matching flag enabled, paired with the next calendar day. -/
def claimed_candidate_pairs (today : Nat) (months_ahead : Int)
    (check_friday_saturday check_saturday_sunday : Bool) : List (Nat × Nat) :=
  ((get_weekend_dates today months_ahead).filter (fun d =>
      (d % 7 == 4 && check_friday_saturday) || (d % 7 == 5 && check_saturday_sunday))).map
    (fun d => (d, d + 1))

/-- One full probing pass of the Selenium variant (lines 245-650), with the
page evidence for each probed check-in date supplied by `fetch`: the result
list collects the candidate dates the classifier accepts (line 632). -/
def selenium_check_availability (today : Nat) (months_ahead : Int)
    (check_friday_saturday check_saturday_sunday : Bool)
    (fetch : Nat → SeleniumEvidence) : List Nat :=
  (candidate_check_in_dates (get_weekend_dates today months_ahead)
      check_friday_saturday check_saturday_sunday).filter
    (fun check_in_date => selenium_true_availability (fetch check_in_date))

/-- One full probing pass of the Requests variant (lines 712-804), evidence
supplied by `fetch`; accepted dates are appended at line 791. -/
def requests_check_availability (today : Nat) (months_ahead : Int)
    (check_friday_saturday check_saturday_sunday : Bool)
    (fetch : Nat → RequestsEvidence) : List Nat :=
  (candidate_check_in_dates (get_weekend_dates today months_ahead)
      check_friday_saturday check_saturday_sunday).filter
    (fun check_in_date => requests_has_availability (fetch check_in_date))

/-- Outcome of one attempt of `check_availability` inside `run_check`: the
call either raises or returns a list of available dates. -/
inductive AttemptOutcome where
  | raises
  | succeeds (available_dates : List Nat)
deriving DecidableEq, Repr

/-- Embeds `run_check` (lines 652-673 and 806-827): the while loop walks the
attempts one by one (the list holds one outcome per allowed attempt, so its
length is `max_retries`); the first attempt that returns yields the dates and
their consecutive pairs, and exhausting every attempt yields the empty
result `([], [])`. -/
def run_check : List AttemptOutcome → List Nat × List (Nat × Nat)
  | [] => ([], [])
  | AttemptOutcome.succeeds available_dates :: _ =>
      (available_dates, find_consecutive_days available_dates)
  | AttemptOutcome.raises :: rest => run_check rest

/-- Embeds `save_results` (lines 980-995) acting on the stored-file state:
on a successful write the file is overwritten with the new results; a write
failure is caught and logged, leaving the previous contents in place. -/
def save_results (prior : Option (List Nat × List (Nat × Nat)))
    (results : List Nat × List (Nat × Nat)) (write_succeeds : Bool) :
    Option (List Nat × List (Nat × Nat)) :=
  if write_succeeds then some results else prior

/-- Stored-file state after one iteration of the `run_availability_checker`
loop body (lines 1040-1043): the cycle runs `run_check` and then calls
`save_results` on whatever it returned, unconditionally. -/
def cycle_stored_results (prior : Option (List Nat × List (Nat × Nat)))
    (attempts : List AttemptOutcome) (write_succeeds : Bool) :
    Option (List Nat × List (Nat × Nat)) :=
  save_results prior (run_check attempts) write_succeeds

/-- States of the `last_results.json` file as seen by `load_last_results`
(lines 997-1014).  The filesystem and the JSON/ISO-date parsers are external
capabilities; the constructors cover the outcomes they can produce: file
absent, file unreadable (open or read raises), contents corrupt or malformed
(`json.load`, `date.fromisoformat`, or the pair destructuring raises), or a
well-formed saved result. -/
inductive LastResultsFile where
  | absent
  | unreadable
  | corrupt
  | wellFormed (available_dates : List Nat) (consecutive_pairs : List (Nat × Nat))
deriving DecidableEq, Repr

/-- Body of the `try` block of `load_last_results`: the absence check returns
the empty result directly; reading or parsing a bad file raises. -/
def read_last_results : LastResultsFile →
    Except String (List Nat × List (Nat × Nat))
  | LastResultsFile.absent => Except.ok ([], [])
  | LastResultsFile.unreadable => Except.error ("read raised")
  | LastResultsFile.corrupt => Except.error ("parse raised")
  | LastResultsFile.wellFormed available_dates consecutive_pairs =>
      Except.ok (available_dates, consecutive_pairs)

/-- Embeds `load_last_results` (lines 997-1014): the `except` arm catches any
raise from the try body and returns the empty result `([], [])`. -/
def load_last_results (file : LastResultsFile) : List Nat × List (Nat × Nat) :=
  match read_last_results file with
  | Except.ok r => r
  | Except.error _ => ([], [])

/-- Python `int(...)` on a rational: truncation toward zero. -/
def pyInt (q : ℚ) : Int := if 0 ≤ q then ⌊q⌋ else ⌈q⌉

/-- Python `random.uniform(a, b)`: the draw is `a + (b - a) * t` for a sample
`t` of the unit interval, supplied explicitly. -/
def random_uniform (a b t : ℚ) : ℚ := a + (b - a) * t

/-- Embeds `calculate_next_check_time` (lines 964-978): base interval in
seconds, variation range, a uniform draw over
`[base - variation, base + variation]`, and `int(max(1800, next_interval))`
flooring the result at 30 minutes. -/
def calculate_next_check_time (check_interval_hours interval_variation_percent : ℚ)
    (t : ℚ) : Int :=
  let base_interval := check_interval_hours * 3600
  let variation_seconds := base_interval * (interval_variation_percent / 100)
  let next_interval :=
    random_uniform (base_interval - variation_seconds)
      (base_interval + variation_seconds) t
  pyInt (max 1800 next_interval)

/-- Email section of the configuration record (DEFAULT_CONFIG lines 68-78). -/
structure EmailConfig where
  enabled : Bool
  smtp_server : String
  smtp_port : Nat
  username : String
  password : String
  from_address : String
  to_address : String
  consecutive_subject : String
  single_day_subject : String
deriving DecidableEq, Repr

/-- Configuration record (DEFAULT_CONFIG lines 58-87). -/
structure Config where
  method : String
  browser : String
  headless : Bool
  check_interval_hours : ℚ
  interval_variation_percent : ℚ
  months_ahead : Int
  weekends_only : Bool
  check_friday_saturday : Bool
  check_saturday_sunday : Bool
  email : EmailConfig
  base_url : String
  widget_config_url : String
  max_retries : Nat
  retry_delay_seconds : Nat
  adults : Nat
  children : Nat
deriving DecidableEq, Repr

/-- Embeds the configuration-state effect of `send_email_notification`
(lines 829-852), returning the configuration record as left after the call.
The early returns (notifications disabled, no dates, missing credentials)
leave it untouched; when `from_address` or `to_address` is empty, lines
848-849 assign the username to both fields of the caller record in place.
The rest of the function (body construction and SMTP delivery, lines
854-962) works on local variables and never writes to the record. -/
def send_email_notification (config : Config) (available_dates : List Nat) : Config :=
  if config.email.enabled = false then config
  else if available_dates = [] then config
  else if config.email.username = "" ∨ config.email.password = "" then config
  else if config.email.from_address = "" ∨ config.email.to_address = "" then
    { config with
        email := { config.email with
                     from_address := config.email.username,
                     to_address := config.email.username } }
  else config

/-- Concrete page content for claim C1: a results page whose text carries
both the blocking phrase and a price, presented to the Selenium variant.
The element counts match the text: one price text node and one room element,
a results heading, no book button. -/
def c1_selenium_evidence : SeleniumEvidence where
  page_source := "Search Results: Action Not Allowed $199 AVERAGE/NIGHT Traditional Room"
  page_title := "Search Results"
  current_url := "https://reservations.example/Accommodation-Search/Results"
  results_heading_count := 1
  book_button_count := 0
  price_text_count := 1
  price_class_count := 0
  rate_class_count := 0
  price_query_raises := false
  room_details_count := 1

/-- The same page content as `c1_selenium_evidence`, presented to the
Requests variant: identical text, and the matching parsed-element counts
(one div with a room class, no book button, one dollar-amount text node). -/
def c1_requests_evidence : RequestsEvidence where
  page_text := "Search Results: Action Not Allowed $199 AVERAGE/NIGHT Traditional Room"
  rate_element_count := 1
  book_button_count := 0
  price_element_count := 1

/-- Clean availability page for the claim C1 witness, Selenium view: no
blocking or no-availability phrase, a results heading and a book button. -/
def c1_clean_selenium_evidence : SeleniumEvidence where
  page_source := "Search Results listing: Book Now"
  page_title := "Search Results"
  current_url := "https://reservations.example/Accommodation-Search/Results"
  results_heading_count := 1
  book_button_count := 1
  price_text_count := 0
  price_class_count := 0
  rate_class_count := 0
  price_query_raises := false
  room_details_count := 0

/-- Clean availability page for the claim C1 witness, Requests view: same
text, one book button parsed out. -/
def c1_clean_requests_evidence : RequestsEvidence where
  page_text := "Search Results listing: Book Now"
  rate_element_count := 0
  book_button_count := 1
  price_element_count := 0

/-- Page content for claim C4: the blocking phrase together with a price
string, as seen by the Selenium variant. -/
def c4_selenium_evidence : SeleniumEvidence where
  page_source := "Action Not Allowed $199"
  page_title := "Results"
  current_url := "https://reservations.example/results"
  results_heading_count := 0
  book_button_count := 0
  price_text_count := 1
  price_class_count := 0
  rate_class_count := 0
  price_query_raises := false
  room_details_count := 0

/-- Page content for claim C4 as seen by the Requests variant: the blocking
phrase together with the price string `$199` in the text, one dollar-amount
text node parsed out. -/
def c4_requests_evidence : RequestsEvidence where
  page_text := "Action Not Allowed $199"
  rate_element_count := 0
  book_button_count := 0
  price_element_count := 1

/-- Availability page used by the claim C9 witness, Selenium view. -/
def c9_selenium_evidence : SeleniumEvidence where
  page_source := "listing: Book Now"
  page_title := "Search Results"
  current_url := "https://reservations.example/stay"
  results_heading_count := 1
  book_button_count := 1
  price_text_count := 0
  price_class_count := 0
  rate_class_count := 0
  price_query_raises := false
  room_details_count := 0

/-- Availability page used by the claim C9 witness, Requests view. -/
def c9_requests_evidence : RequestsEvidence where
  page_text := "$199 per night"
  rate_element_count := 0
  book_button_count := 0
  price_element_count := 1

/-- Concrete configuration for the claim C10 witness: email enabled,
credentials present, empty from and to addresses. -/
def c10_config : Config where
  method := "selenium"
  browser := "chrome"
  headless := true
  check_interval_hours := 3
  interval_variation_percent := 20
  months_ahead := 6
  weekends_only := true
  check_friday_saturday := true
  check_saturday_sunday := true
  email := {
    enabled := true
    smtp_server := "smtp.gmail.com"
    smtp_port := 587
    username := "operator"
    password := "hunter2"
    from_address := ""
    to_address := ""
    consecutive_subject := "Consecutive Weekend Available at Yosemite Valley Lodge!"
    single_day_subject := "Weekend Day Available at Yosemite Valley Lodge" }
  base_url := "https://reservations.ahlsmsworld.com/Yosemite/Plan-Your-Trip/Accommodations/Yosemite-Valley-Lodge/"
  widget_config_url := "https://reservations.ahlsmsworld.com/Yosemite/Search/GetWidgetConfigData"
  max_retries := 3
  retry_delay_seconds := 60
  adults := 1
  children := 0

/-- Helper shared by claims about the probing loop: every candidate check-in
date passes the weekday guard, so its weekday is Friday or Saturday. -/
theorem mem_candidate_check_in_dates {weekend_dates : List Nat} {fs ss : Bool}
    {d : Nat} (h : d ∈ candidate_check_in_dates weekend_dates fs ss) :
    d % 7 = 4 ∨ d % 7 = 5 := by
  have h2 := (List.mem_filter.mp h).2
  simp only [Bool.and_eq_true, Bool.or_eq_true, beq_iff_eq] at h2
  exact h2.2.2

/-- Claim C1 counterexample: one page content, presented equivalently to both
variants (same text, matching element counts), on which the two classifiers
return different verdicts — the text carries the blocking phrase
`Action Not Allowed`, which the Selenium variant rejects, while the Requests
variant sees only the positive signals and accepts. -/
theorem classifier_variants_disagree :
    c1_selenium_evidence.page_source = c1_requests_evidence.page_text
    ∧ selenium_true_availability c1_selenium_evidence = false
    ∧ requests_has_availability c1_requests_evidence = true :=
  ⟨rfl, by decide, by decide⟩

/-- Claim C1 (amended): the two variants do not always agree, because the
Requests classifier applies neither the blocking-phrase check nor the
no-availability check — its verdict is exactly its positive-signal test.
The verdicts do coincide on equivalently presented content whenever the text
carries no error phrase and no no-availability phrase, the Selenium evidence
identifies a results page, and the positive signals of the two variants
agree. -/
theorem classifier_variants_agree_on_clean_content
    (se : SeleniumEvidence) (re : RequestsEvidence)
    (hsame : se.page_source = re.page_text)
    (herr : has_error_phrase (pyLower se.page_source) = false)
    (hna : has_no_availability_phrase (pyLower se.page_source) = false)
    (hres : selenium_is_results_page se = true)
    (hpos : selenium_positive_signal se = requests_positive_signal re) :
    selenium_true_availability se = requests_has_availability re := by
  simp [selenium_true_availability, requests_has_availability, herr, hna, hres, hpos]

/-- Claim C1 witness: the agreement theorem applied to a concrete clean
results page presented to both variants. -/
theorem classifier_variants_agree_witness :
    selenium_true_availability c1_clean_selenium_evidence =
      requests_has_availability c1_clean_requests_evidence :=
  classifier_variants_agree_on_clean_content c1_clean_selenium_evidence
    c1_clean_requests_evidence rfl (by decide) (by decide) (by decide) (by decide)

/-- Claim C2 counterexample: with `max_retries = 3`, a cycle whose three
attempts all raise makes `run_check` return the empty result, which the loop
body then saves, overwriting the previously stored completed-cycle result
`([4], [])` — the store no longer contains the previous result. -/
theorem exhausted_retries_overwrite_store :
    cycle_stored_results (some ([4], []))
        [AttemptOutcome.raises, AttemptOutcome.raises, AttemptOutcome.raises] true
      = some ([], [])
    ∧ cycle_stored_results (some ([4], []))
        [AttemptOutcome.raises, AttemptOutcome.raises, AttemptOutcome.raises] true
      ≠ some ([4], []) := by
  exact ⟨rfl, by decide⟩

/-- Claim C2 (amended): a cycle that exhausts its retries returns the empty
result from `run_check`, and `run_availability_checker` saves it
unconditionally, so a successful write overwrites the previously stored
result with the empty one; the prior store survives only when the write
itself fails (or an exception escapes before the save). -/
theorem exhausted_retries_save_empty
    (prior : Option (List Nat × List (Nat × Nat)))
    (attempts : List AttemptOutcome)
    (h : ∀ a ∈ attempts, a = AttemptOutcome.raises) :
    run_check attempts = ([], [])
    ∧ cycle_stored_results prior attempts true = some ([], [])
    ∧ cycle_stored_results prior attempts false = prior := by
  have key : ∀ l : List AttemptOutcome, (∀ a ∈ l, a = AttemptOutcome.raises) →
      run_check l = ([], []) := by
    intro l
    induction l with
    | nil => intro _; rfl
    | cons a rest ih =>
      intro h2
      have ha := h2 a (List.mem_cons_self a rest)
      subst ha
      exact ih (fun b hb => h2 b (List.mem_cons_of_mem _ hb))
  have hrc := key attempts h
  refine ⟨hrc, ?_, ?_⟩ <;> simp [cycle_stored_results, save_results, hrc]

/-- Claim C2 witness: the amended statement at a concrete prior store and a
concrete all-raising attempt list. -/
theorem exhausted_retries_save_empty_witness :
    run_check [AttemptOutcome.raises, AttemptOutcome.raises, AttemptOutcome.raises]
      = ([], [])
    ∧ cycle_stored_results (some ([9], []))
        [AttemptOutcome.raises, AttemptOutcome.raises, AttemptOutcome.raises] true
      = some ([], [])
    ∧ cycle_stored_results (some ([9], []))
        [AttemptOutcome.raises, AttemptOutcome.raises, AttemptOutcome.raises] false
      = some ([9], []) :=
  exhausted_retries_save_empty (some ([9], [])) _ (by decide)

/-- Claim C3 counterexample: with `today` a Wednesday (day 2 from a Monday
epoch) and a one-month horizon, the last generated date (day 32, a Friday)
qualifies under the claim — both flags on — yet yields no probed pair,
because the probing loop stops before the last element: the claimed set and
the probed set differ. -/
theorem candidate_pairs_miss_last_date :
    (32, 33) ∈ claimed_candidate_pairs 2 1 true true
    ∧ (32, 33) ∉ candidate_date_pairs 2 1 true true
    ∧ candidate_date_pairs 2 1 true true ≠ claimed_candidate_pairs 2 1 true true := by
  exact ⟨by decide, by decide, by decide⟩

/-- Claim C3 (amended): the probed candidate pairs are exactly the qualifying
dates of the generated sequence *without its last element*, each paired with
the next calendar day; every candidate has checkout = checkin + 1 and a
Friday or Saturday check-in, each pair type gated by its flag. -/
theorem candidate_pairs_characterization (today : Nat) (months_ahead : Int)
    (fs ss : Bool) :
    candidate_date_pairs today months_ahead fs ss =
      (((get_weekend_dates today months_ahead).dropLast).filter (fun d =>
          (d % 7 == 4 && fs) || (d % 7 == 5 && ss))).map (fun d => (d, d + 1))
    ∧ ∀ p ∈ candidate_date_pairs today months_ahead fs ss,
        p.2 = p.1 + 1 ∧ (p.1 % 7 = 4 ∨ p.1 % 7 = 5) := by
  constructor
  · unfold candidate_date_pairs candidate_check_in_dates
    congr 1
    apply List.filter_congr
    intro d _
    cases h4 : d % 7 == 4 <;> cases h5 : d % 7 == 5 <;> cases fs <;> cases ss <;>
      simp_all
  · intro p hp
    unfold candidate_date_pairs at hp
    obtain ⟨d, hd, hEq⟩ := List.mem_map.mp hp
    subst hEq
    exact ⟨rfl, mem_candidate_check_in_dates hd⟩

/-- Claim C3 witness: the characterisation at a concrete horizon, and the
pair-shape facts discharged at the concrete probed pair (4, 5). -/
theorem candidate_pairs_characterization_witness :
    candidate_date_pairs 2 1 true true =
      (((get_weekend_dates 2 1).dropLast).filter (fun d =>
          (d % 7 == 4 && true) || (d % 7 == 5 && true))).map (fun d => (d, d + 1))
    ∧ ((4, 5).2 = (4, 5).1 + 1 ∧ ((4, 5).1 % 7 = 4 ∨ (4, 5).1 % 7 = 5)) :=
  ⟨(candidate_pairs_characterization 2 1 true true).1,
   (candidate_pairs_characterization 2 1 true true).2 (4, 5) (by decide)⟩

/-- Claim C4 counterexample: page content carrying the blocking phrase
`Action Not Allowed` together with the price string `$199`, on which the
Requests variant classifies the pair as available, not unavailable. -/
theorem requests_available_despite_blocking_phrase :
    strContains (pyLower c4_requests_evidence.page_text) ("action not allowed") = true
    ∧ strContains c4_requests_evidence.page_text ("$199") = true
    ∧ requests_has_availability c4_requests_evidence = true :=
  ⟨by decide, by decide, by decide⟩

/-- Claim C4 (amended): for every page content containing the blocking phrase
`Action Not Allowed`, the *Selenium* classifier returns unavailable even when
a price string is present; the Requests classifier applies no blocking-phrase
check and returns available whenever a positive signal — such as a dollar
sign in the text — is present. -/
theorem action_not_allowed_verdicts :
    (∀ se : SeleniumEvidence,
        strContains (pyLower se.page_source) ("action not allowed") = true →
        selenium_true_availability se = false)
    ∧ (∀ re : RequestsEvidence,
        strContains (pyLower re.page_text) ("$") = true →
        requests_has_availability re = true) := by
  constructor
  · intro se h
    have herr : has_error_phrase (pyLower se.page_source) = true := by
      simp [has_error_phrase, error_phrases, h]
    simp [selenium_true_availability, herr]
  · intro re h
    simp [requests_has_availability, requests_positive_signal, h]

/-- Claim C4 witness: both halves evaluated at concrete page contents. -/
theorem action_not_allowed_verdicts_witness :
    selenium_true_availability c4_selenium_evidence = false
    ∧ requests_has_availability c4_requests_evidence = true :=
  ⟨action_not_allowed_verdicts.1 c4_selenium_evidence (by decide),
   action_not_allowed_verdicts.2 c4_requests_evidence (by decide)⟩

/-- Claim C7: with `check_interval_hours = 3` and
`interval_variation_percent = 20`, every draw of the unit interval yields a
next-check delay in `[max(1800, 3*3600*0.8), 3*3600*1.2] = [8640, 12960]`
seconds; and for every configuration the returned delay is at least 1800
seconds regardless of smaller configured values. -/
theorem calculate_next_check_time_bounds :
    (∀ t : ℚ, 0 ≤ t → t ≤ 1 →
      8640 ≤ calculate_next_check_time 3 20 t
        ∧ calculate_next_check_time 3 20 t ≤ 12960)
    ∧ (∀ hours variation t : ℚ,
        1800 ≤ calculate_next_check_time hours variation t) := by
  constructor
  · intro t h0 h1
    have e : calculate_next_check_time 3 20 t = pyInt (max 1800 (8640 + 4320 * t)) := by
      simp only [calculate_next_check_time, random_uniform]
      norm_num
    have hlo : (8640 : ℚ) ≤ 8640 + 4320 * t := by nlinarith
    have hhi : (8640 : ℚ) + 4320 * t ≤ 12960 := by nlinarith
    have hmax : max (1800 : ℚ) (8640 + 4320 * t) = 8640 + 4320 * t :=
      max_eq_right (by linarith)
    rw [e, hmax]
    unfold pyInt
    rw [if_pos (by linarith : (0 : ℚ) ≤ 8640 + 4320 * t)]
    constructor
    · exact Int.le_floor.mpr (by push_cast; linarith)
    · calc ⌊(8640 + 4320 * t : ℚ)⌋ ≤ ⌊(12960 : ℚ)⌋ := Int.floor_le_floor hhi
        _ = 12960 := by norm_num
  · intro hours variation t
    simp only [calculate_next_check_time]
    have h1800 : (1800 : ℚ) ≤ max 1800 (random_uniform
        (hours * 3600 - hours * 3600 * (variation / 100))
        (hours * 3600 + hours * 3600 * (variation / 100)) t) := le_max_left _ _
    unfold pyInt
    rw [if_pos (by linarith)]
    exact Int.le_floor.mpr (by push_cast; linarith)

/-- Claim C7 witness: the bounds at the concrete draws `t = 0` (lowest draw)
and an unconstrained configuration for the 1800-second floor. -/
theorem calculate_next_check_time_bounds_witness :
    (8640 ≤ calculate_next_check_time 3 20 0
      ∧ calculate_next_check_time 3 20 0 ≤ 12960)
    ∧ 1800 ≤ calculate_next_check_time 5 50 7 :=
  ⟨calculate_next_check_time_bounds.1 0 (by norm_num) (by norm_num),
   calculate_next_check_time_bounds.2 5 50 7⟩

/-- Claim C8: `load_last_results` returns the empty result on an absent,
unreadable, or corrupt file — the catch-all arm absorbs every raise, so the
loader never raises (it is a total function of the file state) — and
reproduces a present well-formed saved result. -/
theorem load_last_results_spec :
    load_last_results LastResultsFile.absent = ([], [])
    ∧ load_last_results LastResultsFile.unreadable = ([], [])
    ∧ load_last_results LastResultsFile.corrupt = ([], [])
    ∧ ∀ (ds : List Nat) (ps : List (Nat × Nat)),
        load_last_results (LastResultsFile.wellFormed ds ps) = (ds, ps) :=
  ⟨rfl, rfl, rfl, fun _ _ => rfl⟩

/-- Claim C9: every date either variant appends to its available-dates list
is a candidate check-in date, hence has weekday Friday or Saturday — the
availability set produced by a periodic check cycle never contains a Sunday
check-in, whatever the fetched page evidence. -/
theorem available_dates_weekday_invariant (today : Nat) (months_ahead : Int)
    (fs ss : Bool) (fetchS : Nat → SeleniumEvidence)
    (fetchR : Nat → RequestsEvidence) (d : Nat) :
    (d ∈ selenium_check_availability today months_ahead fs ss fetchS →
      (d % 7 = 4 ∨ d % 7 = 5))
    ∧ (d ∈ requests_check_availability today months_ahead fs ss fetchR →
      (d % 7 = 4 ∨ d % 7 = 5)) := by
  constructor <;> intro h <;>
    exact mem_candidate_check_in_dates (List.mem_filter.mp h).1

/-- Claim C9 witness: the invariant applied to concrete runs in which the
fetched evidence classifies every probed date available. -/
theorem available_dates_weekday_invariant_witness :
    (4 % 7 = 4 ∨ 4 % 7 = 5) ∧ (5 % 7 = 4 ∨ 5 % 7 = 5) :=
  ⟨(available_dates_weekday_invariant 0 1 true true
      (fun _ => c9_selenium_evidence) (fun _ => c9_requests_evidence) 4).1
      (by decide),
   (available_dates_weekday_invariant 0 1 true true
      (fun _ => c9_selenium_evidence) (fun _ => c9_requests_evidence) 5).2
      (by decide)⟩

/-- Claim C10: when email is enabled, the date list is non-empty, credentials
are present, and `from_address` or `to_address` is empty, the notifier
rewrites exactly those two fields of the caller record to the configured
username and leaves every other configuration field unchanged (the result is
the input record with only the two address fields replaced). -/
theorem send_email_notification_mutation (config : Config) (dates : List Nat)
    (h1 : config.email.enabled = true) (h2 : dates ≠ [])
    (h3 : config.email.username ≠ "") (h4 : config.email.password ≠ "")
    (h5 : config.email.from_address = "" ∨ config.email.to_address = "") :
    send_email_notification config dates =
      { config with
          email := { config.email with
                       from_address := config.email.username,
                       to_address := config.email.username } } := by
  unfold send_email_notification
  rw [if_neg (by simp [h1]), if_neg h2,
    if_neg (by push_neg; exact ⟨h3, h4⟩), if_pos h5]

/-- Claim C10 witness: the mutation at a concrete configuration with empty
addresses. -/
theorem send_email_notification_mutation_witness :
    send_email_notification c10_config [4] =
      { c10_config with
          email := { c10_config.email with
                       from_address := c10_config.email.username,
                       to_address := c10_config.email.username } } :=
  send_email_notification_mutation c10_config [4] rfl (by decide) (by decide)
    (by decide) (Or.inl rfl)

/-- Claim C5: for every horizon `H >= 0`, `get_weekend_dates` returns a
strictly ascending, duplicate-free list containing exactly the dates in
`[today, today + 30 * H]` whose weekday is Friday, Saturday, or Sunday; a
horizon of `0` or negative yields an empty or single-day sequence and never
fails (totality is immediate from the embedding being a total function). -/
theorem get_weekend_dates_spec (today : Nat) (H : Int) :
    (0 ≤ H → ∀ d : Nat,
      (d ∈ get_weekend_dates today H ↔
        (today ≤ d ∧ (d : Int) ≤ (today : Int) + 30 * H ∧
          (d % 7 = 4 ∨ d % 7 = 5 ∨ d % 7 = 6))))
    ∧ List.Sorted (· < ·) (get_weekend_dates today H)
    ∧ (H ≤ 0 → (get_weekend_dates today H).length ≤ 1) := by
  refine ⟨?_, ?_, ?_⟩
  · intro hH d
    unfold get_weekend_dates
    simp only [List.mem_filter, List.mem_map, List.mem_range, Bool.or_eq_true,
      beq_iff_eq]
    constructor
    · rintro ⟨⟨i, hi, rfl⟩, hw⟩
      exact ⟨Nat.le_add_right _ _, by omega, by omega⟩
    · rintro ⟨h1, h2, h3⟩
      exact ⟨⟨d - today, by omega, by omega⟩, by omega⟩
  · unfold get_weekend_dates
    apply List.Pairwise.filter
    exact (List.pairwise_lt_range _).map _ (fun a b h => by omega)
  · intro hH
    unfold get_weekend_dates
    refine le_trans (List.length_filter_le _ _) ?_
    simp only [List.length_map, List.length_range]
    omega

/-- Claim C5 witness: the characterisation evaluated at `today = 0`, `H = 1`,
`d = 4`, and the small-horizon bound at `H = -1`. -/
theorem get_weekend_dates_spec_witness :
    (4 ∈ get_weekend_dates 0 1 ↔
      (0 ≤ 4 ∧ (4 : Int) ≤ (0 : Int) + 30 * 1 ∧
        (4 % 7 = 4 ∨ 4 % 7 = 5 ∨ 4 % 7 = 6)))
    ∧ (get_weekend_dates 0 (-1)).length ≤ 1 :=
  ⟨(get_weekend_dates_spec 0 1).1 (by decide) 4,
   (get_weekend_dates_spec 0 (-1)).2.2 (by decide)⟩

/-- Claim C6: for every ascending-sorted list of dates, `find_consecutive_days`
returns exactly the positionally adjacent pairs that differ by exactly one day
with weekday combination (Friday, Saturday) or (Saturday, Sunday); inputs of
size below two yield no pair; and the input [Friday 4/4, Saturday 4/5,
Sunday 4/6] (day numbers 4, 5, 6 from a Monday epoch; 2025-03-31 was a
Monday, so these are 2025-04-04 .. 2025-04-06) yields exactly the two pairs,
not one triple.  Sortedness is assumed as in the claim, though the equality
holds for every list. -/
theorem find_consecutive_days_spec :
    (∀ l : List Nat, List.Sorted (· ≤ ·) l →
      find_consecutive_days l = spec_adjacent_weekend_pairs l)
    ∧ (∀ l : List Nat, l.length < 2 → find_consecutive_days l = [])
    ∧ find_consecutive_days [4, 5, 6] = [(4, 5), (5, 6)] := by
  have key : ∀ l : List Nat, find_consecutive_days l = spec_adjacent_weekend_pairs l := by
    intro l
    induction l with
    | nil => rfl
    | cons a t ih =>
      cases t with
      | nil => rfl
      | cons b t2 =>
        show (if _ then [(a, b)] else []) ++ find_consecutive_days (b :: t2) = _
        rw [ih]
        unfold spec_adjacent_weekend_pairs
        simp only [List.tail_cons, List.zip_cons_cons, List.filter_cons]
        split <;> simp
  refine ⟨fun l _ => key l, ?_, by decide⟩
  intro l h
  match l with
  | [] => rfl
  | [a] => rfl
  | a :: b :: t => simp at h; omega

/-- Claim C6 witness: the equality applied to the concrete sorted input
[4, 5, 6] and the size bound applied to a singleton. -/
theorem find_consecutive_days_spec_witness :
    find_consecutive_days [4, 5, 6] = spec_adjacent_weekend_pairs [4, 5, 6]
    ∧ find_consecutive_days [9] = [] :=
  ⟨find_consecutive_days_spec.1 [4, 5, 6] (by decide),
   find_consecutive_days_spec.2.1 [9] (by decide)⟩
